import Mathlib

/-!
Shallow embedding of the Vesture backend (a TypeScript/Express/Mongoose
REST application) for verifying its natural-language specification.

Document ids are modelled as `String` (Mongo ObjectIds compared by value,
which is what mongoose array `includes`/`equals` do).  Each Mongo
collection is modelled as a function from id to an optional document;
`findByIdAndUpdate`/`save` become functional updates.  Counters are `Nat`
(the schema defaults them to `0`), so JavaScript's `Math.max(0, c - 1)`
is truncated subtraction.
-/

namespace Vesture

/-- A stored `User` document (`Backend/src/models/User.ts`), restricted to
the fields the social-relationship operations touch. -/
structure UserDoc where
  username : String
  following : List String
  followers : List String
  followingCount : Nat
  followerCount : Nat
  deriving DecidableEq, Repr

/-- The `users` collection: each id resolves to at most one document. -/
def UserDb : Type := String → Option UserDoc

/-- `findByIdAndUpdate` / `document.save()`: replace the document stored
under `k` by `v`. -/
def UserDb.set (db : UserDb) (k : String) (v : UserDoc) : UserDb :=
  fun i => if i = k then some v else db i

/-- An HTTP response: status code and message, as produced by
`res.status(s).json({ message })`. -/
structure Response where
  status : Nat
  message : String
  deriving DecidableEq, Repr

/-- `followUserController` (`Backend/src/controllers/userController.ts`,
lines 146-182): rejects self-follow with 400, returns 404 when either
user is missing, 400 when the target is already in the actor's
`following` list, and otherwise pushes the ids onto both lists and
increments both counters. -/
def followUserController (db : UserDb) (userId followUserId : String) :
    Response × UserDb :=
  if userId = followUserId then
    (⟨400, "You cannot follow yourself"⟩, db)
  else
    match db userId, db followUserId with
    | some user, some followUser =>
        if user.following.contains followUserId then
          (⟨400, "You already follow this user"⟩, db)
        else
          let user' := { user with
            following := user.following ++ [followUserId],
            followingCount := user.followingCount + 1 }
          let followUser' := { followUser with
            followers := followUser.followers ++ [userId],
            followerCount := followUser.followerCount + 1 }
          (⟨200, "You are now following " ++ followUser.username⟩,
            (db.set userId user').set followUserId followUser')
    | _, _ => (⟨404, "User not found"⟩, db)

/-- `unfollowUserController` (`Backend/src/controllers/userController.ts`,
lines 185-221): rejects self-unfollow with 400, returns 404 when either
user is missing, 400 when the target is not in the actor's `following`
list, and otherwise filters the ids out of both lists and decrements both
counters, clamped at zero. -/
def unfollowUserController (db : UserDb) (userId unfollowUserId : String) :
    Response × UserDb :=
  if userId = unfollowUserId then
    (⟨400, "You cannot unfollow yourself"⟩, db)
  else
    match db userId, db unfollowUserId with
    | some user, some unfollowUser =>
        if user.following.contains unfollowUserId then
          let user' := { user with
            following := user.following.filter (fun i => i ≠ unfollowUserId),
            followingCount := user.followingCount - 1 }
          let unfollowUser' := { unfollowUser with
            followers := unfollowUser.followers.filter (fun i => i ≠ userId),
            followerCount := unfollowUser.followerCount - 1 }
          (⟨200, "You have unfollowed " ++ unfollowUser.username⟩,
            (db.set userId user').set unfollowUserId unfollowUser')
        else
          (⟨400, "You are not following this user"⟩, db)
    | _, _ => (⟨404, "User not found"⟩, db)

/-- The `following` list stored under id `i`, if `i` resolves. -/
def followingOf (db : UserDb) (i : String) : Option (List String) :=
  (db i).map UserDoc.following

/-- The `followers` list stored under id `i`, if `i` resolves. -/
def followersOf (db : UserDb) (i : String) : Option (List String) :=
  (db i).map UserDoc.followers

/-- The `followingCount` stored under id `i`, if `i` resolves. -/
def followingCountOf (db : UserDb) (i : String) : Option Nat :=
  (db i).map UserDoc.followingCount

/-- The `followerCount` stored under id `i`, if `i` resolves. -/
def followerCountOf (db : UserDb) (i : String) : Option Nat :=
  (db i).map UserDoc.followerCount

/-- A fresh user document, as created by `createUser` with the schema
defaults of `User.ts`. -/
def freshUser (username : String) : UserDoc :=
  ⟨username, [], [], 0, 0⟩

/-- A concrete two-user database used by witnesses. -/
def twoUserDb : UserDb := fun i =>
  if i = "a" then some (freshUser "alice")
  else if i = "b" then some (freshUser "bob")
  else none

/-- The user document for an actor who already follows `"b"`. -/
def relAlice : UserDoc := ⟨"alice", ["b"], [], 1, 0⟩

/-- The user document for a target already followed by `"a"`. -/
def relBob : UserDoc := ⟨"bob", [], ["a"], 0, 1⟩

/-- A concrete database in which `"a"` already follows `"b"`. -/
def relDb : UserDb := fun i =>
  if i = "a" then some relAlice
  else if i = "b" then some relBob
  else none

/-- The counters of a user document mirror its list lengths. -/
def countsOkB (u : UserDoc) : Bool :=
  u.followingCount == u.following.length && u.followerCount == u.followers.length

/-- `countsOkB` at the document stored under `i`; vacuously true when `i`
does not resolve. -/
def countsOkAt (db : UserDb) (i : String) : Bool :=
  (db i).elim true countsOkB

/-- An actor whose `following` list holds a duplicated id, with the
counter matching the list length. -/
def dupAlice : UserDoc := ⟨"alice", ["b", "b"], [], 2, 0⟩

/-- A target whose `followers` list holds a duplicated id, with the
counter matching the list length. -/
def dupBob : UserDoc := ⟨"bob", [], ["a", "a"], 0, 2⟩

/-- A database whose relationship lists contain duplicated ids while every
counter equals the corresponding list length. -/
def dupDb : UserDb := fun i =>
  if i = "a" then some dupAlice
  else if i = "b" then some dupBob
  else none

/-- An embedded comment record of an OOTD post
(`Backend/src/models/OOTDPost.ts`): user, text and server-assigned
timestamp. -/
structure CommentDoc where
  userId : String
  text : String
  timestamp : Nat
  deriving DecidableEq, Repr

/-- A stored `OOTDPost` document, restricted to the fields the
interaction operations touch. -/
structure PostDoc where
  userId : String
  likes : List String
  saves : List String
  comments : List CommentDoc
  deriving DecidableEq, Repr

/-- The `ootdposts` collection. -/
def PostDb : Type := String → Option PostDoc

/-- `findByIdAndUpdate`: replace the document stored under `k` by `v`. -/
def PostDb.set (db : PostDb) (k : String) (v : PostDoc) : PostDb :=
  fun i => if i = k then some v else db i

/-- Mongo `$addToSet`: append the value unless it is already present. -/
def addToSet (l : List String) (u : String) : List String :=
  if l.contains u then l else l ++ [u]

/-- Mongo `$pull`: remove every element equal to the value. -/
def pull (l : List String) (u : String) : List String :=
  l.filter (fun i => i ≠ u)

/-- A `Notification` document as built by the interaction controllers:
recipient user, action type, originating post id and generated message. -/
structure NotificationDoc where
  userId : String
  ntype : String
  relatedId : String
  message : String
  deriving DecidableEq, Repr

/-- `likeOOTDPostController` (`ootdPostController.ts`): `$addToSet` the
actor into `likes`; 404 when the post is missing; a `like` notification
for the post owner unless the actor is the owner. -/
def likeOOTDPostController (db : PostDb) (postId userId : String) :
    Response × PostDb × List NotificationDoc :=
  match db postId with
  | none => (⟨404, "OOTD post not found"⟩, db, [])
  | some p =>
      let p' := { p with likes := addToSet p.likes userId }
      let notifs :=
        if p.userId ≠ userId then
          [⟨p.userId, "like", postId, "User " ++ userId ++ " liked your post."⟩]
        else []
      (⟨200, "Post liked successfully"⟩, db.set postId p', notifs)

/-- `unlikeOOTDPostController`: `$pull` the actor from `likes`; 404 when
the post is missing; no notification. -/
def unlikeOOTDPostController (db : PostDb) (postId userId : String) :
    Response × PostDb × List NotificationDoc :=
  match db postId with
  | none => (⟨404, "OOTD post not found"⟩, db, [])
  | some p =>
      let p' := { p with likes := pull p.likes userId }
      (⟨200, "Like removed successfully"⟩, db.set postId p', [])

/-- `addCommentController`: `$push` a comment record with server-assigned
timestamp; 404 when the post is missing; a `comment` notification for the
post owner unless the actor is the owner. -/
def addCommentController (db : PostDb) (postId userId text : String)
    (now : Nat) : Response × PostDb × List NotificationDoc :=
  match db postId with
  | none => (⟨404, "OOTD post not found"⟩, db, [])
  | some p =>
      let p' := { p with comments := p.comments ++ [⟨userId, text, now⟩] }
      let notifs :=
        if p.userId ≠ userId then
          [⟨p.userId, "comment", postId,
            "User " ++ userId ++ " commented on your post: \"" ++ text ++ "\""⟩]
        else []
      (⟨200, "Comment added successfully"⟩, db.set postId p', notifs)

/-- `saveOOTDPostController`: `$addToSet` the actor into `saves`; 404 when
the post is missing; a `save` notification for the post owner unless the
actor is the owner. -/
def saveOOTDPostController (db : PostDb) (postId userId : String) :
    Response × PostDb × List NotificationDoc :=
  match db postId with
  | none => (⟨404, "OOTD post not found"⟩, db, [])
  | some p =>
      let p' := { p with saves := addToSet p.saves userId }
      let notifs :=
        if p.userId ≠ userId then
          [⟨p.userId, "save", postId, "User " ++ userId ++ " saved your post."⟩]
        else []
      (⟨200, "Post saved successfully"⟩, db.set postId p', notifs)

/-- `unsaveOOTDPostController`: `$pull` the actor from `saves`; 404 when
the post is missing; no notification. -/
def unsaveOOTDPostController (db : PostDb) (postId userId : String) :
    Response × PostDb × List NotificationDoc :=
  match db postId with
  | none => (⟨404, "OOTD post not found"⟩, db, [])
  | some p =>
      let p' := { p with saves := pull p.saves userId }
      (⟨200, "Post unsaved successfully"⟩, db.set postId p', [])

/-- `likeOOTDPost` (`Backend/src/services/ootdPostService.ts`, lines
87-99): `$addToSet` the actor into the post's `likes`, returning the
updated document when the post resolves. -/
def likeOOTDPost (db : PostDb) (postId userId : String) :
    Option PostDoc × PostDb :=
  match db postId with
  | none => (none, db)
  | some p =>
      let p' := { p with likes := addToSet p.likes userId }
      (some p', db.set postId p')

/-- `unlikeOOTDPost` (`ootdPostService.ts`, lines 102-114): `$pull` the
actor from the post's `likes`. -/
def unlikeOOTDPost (db : PostDb) (postId userId : String) :
    Option PostDoc × PostDb :=
  match db postId with
  | none => (none, db)
  | some p =>
      let p' := { p with likes := pull p.likes userId }
      (some p', db.set postId p')

/-- The number of likes stored on post `i`, if `i` resolves. -/
def likesCountOf (db : PostDb) (i : String) : Option Nat :=
  (db i).map (fun p => p.likes.length)

/-- A concrete post owned by `"owner"` used by witnesses. -/
def post0 : PostDoc := ⟨"owner", [], [], []⟩

/-- A concrete one-post database used by witnesses. -/
def postDb0 : PostDb := fun i => if i = "p1" then some post0 else none

/-- A stored `Product` document (`Product.ts`), restricted to the fields
the upsert and closet-item operations use.  Optional fields model schema
fields that may be absent; an empty string models a present but
JavaScript-falsy value. -/
structure ProductDoc where
  pid : Nat
  name : String
  brand : String
  ptype : Option String
  color : Option String
  season : Option String
  occasion : Option String
  image : Option String
  price : Option Nat
  link : Option String
  deriving DecidableEq, Repr

/-- A candidate product description (`Partial<ProductDocument>`) arriving
from the external classifier. -/
structure CandidateDoc where
  name : String
  brand : String
  ptype : Option String
  color : Option String
  season : Option String
  occasion : Option String
  image : Option String
  price : Option Nat
  link : Option String
  deriving DecidableEq, Repr

/-- JavaScript truthiness of a string: the empty string is falsy. -/
def truthyS (s : String) : Bool := !(s == "")

/-- JavaScript truthiness of an optional string field: absent and empty
are falsy. -/
def truthyO : Option String → Bool
  | none => false
  | some s => truthyS s

/-- JavaScript truthiness of an optional numeric field: absent and `0`
are falsy. -/
def truthyN : Option Nat → Bool
  | none => false
  | some n => !(n == 0)

/-- `Product.findOne({ name, brand })`: the match criterion of the
service-level upsert (`productService.ts`, line 89). -/
def matchesNB (c : CandidateDoc) (p : ProductDoc) : Bool :=
  p.name == c.name && p.brand == c.brand

/-- `Product.findOne({ name, brand, type, color })`: the match criterion
of the controller-level upsert (`productController.ts`, line 124). -/
def matchesNBTC (c : CandidateDoc) (p : ProductDoc) : Bool :=
  p.name == c.name && p.brand == c.brand && p.ptype == c.ptype &&
    p.color == c.color

/-- `Product.create(clarifaiData)`: a fresh document holding the supplied
fields under a fresh id. -/
def createFromCandidate (nid : Nat) (c : CandidateDoc) : ProductDoc :=
  ⟨nid, c.name, c.brand, c.ptype, c.color, c.season, c.occasion, c.image,
    c.price, c.link⟩

/-- `Product.findByIdAndUpdate(existing._id, clarifaiData)`: overwrite the
fields the candidate supplies, keep the fields it omits. -/
def applyUpdate (c : CandidateDoc) (p : ProductDoc) : ProductDoc :=
  { p with
    name := c.name
    brand := c.brand
    ptype := match c.ptype with | some v => some v | none => p.ptype
    color := match c.color with | some v => some v | none => p.color
    season := match c.season with | some v => some v | none => p.season
    occasion := match c.occasion with | some v => some v | none => p.occasion
    image := match c.image with | some v => some v | none => p.image
    price := match c.price with | some v => some v | none => p.price
    link := match c.link with | some v => some v | none => p.link }

/-- Update-by-id on a list store: replace the first document whose id
matches (Mongo `_id`s are unique, enforced here by a `Nodup` hypothesis
where it matters). -/
def updateById (store : List ProductDoc) (pid : Nat) (v : ProductDoc) :
    List ProductDoc :=
  match store with
  | [] => []
  | p :: rest => if p.pid = pid then v :: rest else p :: updateById rest pid v

/-- `upsertProductFromClarifai` (`productService.ts`, lines 87-102): look
up by (name, brand); update the existing record in place when found,
insert a fresh one otherwise.  Returns the product handed back, the new
store, and the next fresh id. -/
def upsertProductFromClarifai (store : List ProductDoc) (nid : Nat)
    (c : CandidateDoc) : ProductDoc × List ProductDoc × Nat :=
  match store.find? (matchesNB c) with
  | some existing =>
      let p2 := applyUpdate c existing
      (p2, updateById store existing.pid p2, nid)
  | none =>
      let p := createFromCandidate nid c
      (p, store ++ [p], nid + 1)

/-- The required-field check of the upsert controller
(`productController.ts`, line 118), in source order. -/
def clarifaiFieldsPresent (c : CandidateDoc) : Bool :=
  truthyS c.brand && truthyS c.name && truthyO c.ptype && truthyO c.color &&
    truthyN c.price && truthyO c.link

/-- `upsertProductFromClarifaiController` (`productController.ts`, lines
113-151): 400 when a required field is missing; look up by (name, brand,
type, color); return the existing record unchanged when found, insert a
fresh one otherwise. -/
def upsertProductFromClarifaiController (store : List ProductDoc) (nid : Nat)
    (c : CandidateDoc) : Response × List ProductDoc × Nat :=
  if !(clarifaiFieldsPresent c) then
    (⟨400, "Missing required fields for Clarifai product."⟩, store, nid)
  else
    match store.find? (matchesNBTC c) with
    | some _ => (⟨200, "Product already exists"⟩, store, nid)
    | none =>
        (⟨201, "Product created from Clarifai data"⟩,
          store ++ [createFromCandidate nid c], nid + 1)

/-- A closet-item creation request (`Partial<ClosetItemDocument>`). -/
structure ClosetItemData where
  productId : Option Nat
  name : Option String
  ptype : Option String
  color : Option String
  season : Option String
  occasion : Option String
  customImage : Option String
  deriving DecidableEq, Repr

/-- A created `ClosetItem` document, restricted to its descriptive
fields. -/
structure ClosetItemDoc where
  productId : Option Nat
  name : Option String
  ptype : Option String
  color : Option String
  season : Option String
  occasion : Option String
  customImage : Option String
  deriving DecidableEq, Repr

/-- JavaScript `a || b` on optional string values. -/
def jsOr (a b : Option String) : Option String :=
  if truthyO a then a else b

/-- `createClosetItem` (`closetItemService.ts`, lines 23-50): when a
product reference is supplied and resolves, populate each descriptive
field product-first with the request value as fallback; error when the
product does not resolve; without a product reference require a truthy
name. -/
def createClosetItem (products : List ProductDoc) (d : ClosetItemData) :
    Except String ClosetItemDoc :=
  match d.productId with
  | some pid =>
      match products.find? (fun p => p.pid == pid) with
      | none => Except.error "Failed to create closet item"
      | some product =>
          Except.ok
            { productId := d.productId
              name := jsOr (some product.name) d.name
              ptype := jsOr product.ptype d.ptype
              color := jsOr product.color d.color
              season := jsOr product.season d.season
              occasion := jsOr product.occasion d.occasion
              customImage := jsOr product.image d.customImage }
  | none =>
      if truthyO d.name then
        Except.ok
          { productId := none
            name := d.name
            ptype := d.ptype
            color := d.color
            season := d.season
            occasion := d.occasion
            customImage := d.customImage }
      else Except.error "Failed to create closet item"

/-- A product stored before the counterexample run: same name and brand
as the candidate, different type and color. -/
def prodShirt : ProductDoc :=
  ⟨0, "n", "b", some "shirt", some "red", none, none, some "i", some 10,
    some "l"⟩

/-- The counterexample candidate: identical name and brand, different
type and color. -/
def candCoat : CandidateDoc :=
  ⟨"n", "b", some "coat", some "blue", none, none, some "i", some 10,
    some "l"⟩

/-- A well-formed candidate used by the C6 witness. -/
def cand0 : CandidateDoc :=
  ⟨"n", "b", some "t", some "c", none, none, some "i", some 5, some "l"⟩

/-- A concrete product for the C7 witness: truthy type, missing color,
empty-string (falsy) season, missing occasion, truthy image and name. -/
def prodW : ProductDoc :=
  ⟨5, "Nice Shirt", "B", some "shirt", none, some "", none, some "img",
    some 10, some "l"⟩

/-- A concrete closet-item request for the C7 witness, supplying its own
values for every descriptive field. -/
def reqW : ClosetItemData :=
  ⟨some 5, some "ReqName", some "reqtype", some "blue", some "summer",
    some "casual", some "reqimg"⟩

/-- The closet item the C7 witness expects `createClosetItem` to build. -/
def itemW : ClosetItemDoc :=
  ⟨some 5, some "Nice Shirt", some "shirt", some "blue", some "summer",
    some "casual", some "img"⟩

/-- The payload the backend signs into a JWT: the user id. -/
structure AuthPayload where
  userId : String
  deriving DecidableEq, Repr

/-- An idealised signed token: payload, issue and expiry instants, and
the signing secret (standing in for the cryptographic signature, which is
an external collaborator). -/
structure Jwt where
  payload : AuthPayload
  iat : Nat
  exp : Nat
  secret : String
  deriving DecidableEq, Repr

/-- `jwt.sign(payload, secret, { expiresIn })` at instant `now` with a
validity window of `expiresInSecs` seconds. -/
def jwtSign (payload : AuthPayload) (secret : String)
    (now expiresInSecs : Nat) : Jwt :=
  ⟨payload, now, now + expiresInSecs, secret⟩

/-- `jwt.verify(token, secret)` at instant `now`: the payload when the
signature matches the secret and the token has not expired, an error
otherwise. -/
def jwtVerify (t : Jwt) (secret : String) (now : Nat) : Option AuthPayload :=
  if t.secret = secret ∧ now < t.exp then some t.payload else none

/-- `generateToken` (`AuthToken.ts`, lines 30-32): sign the user id with
the configured secret, valid for one hour (3600 seconds). -/
def generateToken (secret : String) (userId : String) (now : Nat) : Jwt :=
  jwtSign ⟨userId⟩ secret now 3600

/-- An Authorization header: the scheme word before the space and the
token after it (`authHeader.split(' ')[1]`); `none` in the second
component when the header has no second word. -/
structure AuthHeader where
  scheme : String
  token : Option Jwt
  deriving Repr

/-- Outcome of the `verifyToken` middleware: reject with 401, reject with
403, or call `next()` with the decoded user id attached to `req.body`. -/
inductive VerifyOutcome where
  | unauthenticated
  | forbidden
  | authenticated (userId : String)
  deriving DecidableEq, Repr

/-- The HTTP status each middleware outcome writes (200 standing for
"passed through to the next handler"). -/
def VerifyOutcome.status : VerifyOutcome → Nat
  | .unauthenticated => 401
  | .forbidden => 403
  | .authenticated _ => 200

/-- `verifyToken` (`AuthToken.ts`, lines 35-55): 401 when the
Authorization header is absent; otherwise extract the second word of the
header; 403 when `jwt.verify` fails (missing token word, signature
mismatch, or expiry); otherwise expose the decoded user id. -/
def verifyToken (secret : String) (now : Nat)
    (authHeader : Option AuthHeader) : VerifyOutcome :=
  match authHeader with
  | none => .unauthenticated
  | some h =>
      match h.token with
      | none => .forbidden
      | some t =>
          match jwtVerify t secret now with
          | none => .forbidden
          | some p => .authenticated p.userId

/-- A token signed with a different secret, used by the C9 witness. -/
def badToken : Jwt := jwtSign ⟨"u"⟩ "other" 0 3600

theorem UserDb.set_self (db : UserDb) (k : String) (v : UserDoc) :
    UserDb.set db k v k = some v := by
  simp [UserDb.set]

theorem UserDb.set_other (db : UserDb) {i k : String} (v : UserDoc) (h : i ≠ k) :
    UserDb.set db k v i = db i := by
  simp [UserDb.set, h]

theorem filter_ne_of_not_contains {l : List String} {b : String}
    (h : l.contains b = false) :
    l.filter (fun i => i ≠ b) = l := by
  have hb : b ∉ l := by simpa using h
  apply List.filter_eq_self.mpr
  intro x hx
  simp only [decide_eq_true_eq]
  exact fun hxb => hb (hxb ▸ hx)

theorem followUserController_success (db : UserDb) {a b : String}
    {uA uB : UserDoc} (hab : a ≠ b) (hA : db a = some uA) (hB : db b = some uB)
    (hF : uA.following.contains b = false) :
    followUserController db a b =
      (⟨200, "You are now following " ++ uB.username⟩,
        (db.set a { uA with
            following := uA.following ++ [b],
            followingCount := uA.followingCount + 1 }).set b
          { uB with
            followers := uB.followers ++ [a],
            followerCount := uB.followerCount + 1 }) := by
  simp [followUserController, hab, hA, hB, hF]
  simpa using hF

theorem unfollowUserController_success (db : UserDb) {a b : String}
    {uA uB : UserDoc} (hab : a ≠ b) (hA : db a = some uA) (hB : db b = some uB)
    (hF : uA.following.contains b = true) :
    unfollowUserController db a b =
      (⟨200, "You have unfollowed " ++ uB.username⟩,
        (db.set a { uA with
            following := uA.following.filter (fun i => i ≠ b),
            followingCount := uA.followingCount - 1 }).set b
          { uB with
            followers := uB.followers.filter (fun i => i ≠ a),
            followerCount := uB.followerCount - 1 }) := by
  simp [unfollowUserController, hab, hA, hB, hF]
  simpa using hF

/-- Claim C1: for distinct existing users `a` and `b` whose follow
relationship `a → b` is not yet recorded (no `b` in `a`'s `following`
list and no `a` in `b`'s `followers` list), performing the follow
operation `a → b` and then the unfollow operation `a → b` leaves `a`'s
`following` list and `followingCount` and `b`'s `followers` list and
`followerCount` exactly equal to their values before the follow. -/
theorem follow_then_unfollow_roundtrip (db : UserDb) (a b : String)
    (uA uB : UserDoc) (hab : a ≠ b) (hA : db a = some uA) (hB : db b = some uB)
    (hF : uA.following.contains b = false)
    (hR : uB.followers.contains a = false) :
    followingOf (unfollowUserController (followUserController db a b).2 a b).2 a
      = followingOf db a ∧
    followingCountOf (unfollowUserController (followUserController db a b).2 a b).2 a
      = followingCountOf db a ∧
    followersOf (unfollowUserController (followUserController db a b).2 a b).2 b
      = followersOf db b ∧
    followerCountOf (unfollowUserController (followUserController db a b).2 a b).2 b
      = followerCountOf db b := by
  have hA1 : (followUserController db a b).2 a
      = some { uA with following := uA.following ++ [b],
                       followingCount := uA.followingCount + 1 } := by
    rw [followUserController_success db hab hA hB hF]
    dsimp only
    rw [UserDb.set_other _ _ hab, UserDb.set_self]
  have hB1 : (followUserController db a b).2 b
      = some { uB with followers := uB.followers ++ [a],
                       followerCount := uB.followerCount + 1 } := by
    rw [followUserController_success db hab hA hB hF]
    dsimp only
    rw [UserDb.set_self]
  have hF1 : (uA.following ++ [b]).contains b = true := by simp
  have h2 := unfollowUserController_success
    (followUserController db a b).2 hab hA1 hB1 hF1
  have hFmem : ∀ x ∈ uA.following, ¬ x = b := by
    intro x hx
    have hb : b ∉ uA.following := by simpa using hF
    exact fun e => hb (e ▸ hx)
  have hRmem : ∀ x ∈ uB.followers, ¬ x = a := by
    intro x hx
    have ha : a ∉ uB.followers := by simpa using hR
    exact fun e => ha (e ▸ hx)
  refine ⟨?_, ?_, ?_, ?_⟩
  · simp [followingOf, h2, UserDb.set, hab, hA, List.filter_append]
    exact hFmem
  · simp [followingCountOf, h2, UserDb.set, hab, hA]
  · simp [followersOf, h2, UserDb.set, hab, hB, List.filter_append]
    exact hRmem
  · simp [followerCountOf, h2, UserDb.set, hab, hB]

/-- Witness for C1 at a concrete two-user database. -/
theorem follow_then_unfollow_roundtrip_witness :
    (("a" : String) ≠ "b" ∧
      twoUserDb "a" = some (freshUser "alice") ∧
      twoUserDb "b" = some (freshUser "bob") ∧
      (freshUser "alice").following.contains "b" = false ∧
      (freshUser "bob").followers.contains "a" = false) ∧
    (followingOf
        (unfollowUserController (followUserController twoUserDb "a" "b").2 "a" "b").2 "a"
        = followingOf twoUserDb "a" ∧
      followingCountOf
        (unfollowUserController (followUserController twoUserDb "a" "b").2 "a" "b").2 "a"
        = followingCountOf twoUserDb "a" ∧
      followersOf
        (unfollowUserController (followUserController twoUserDb "a" "b").2 "a" "b").2 "b"
        = followersOf twoUserDb "b" ∧
      followerCountOf
        (unfollowUserController (followUserController twoUserDb "a" "b").2 "a" "b").2 "b"
        = followerCountOf twoUserDb "b") :=
  ⟨by decide,
    follow_then_unfollow_roundtrip twoUserDb "a" "b" (freshUser "alice")
      (freshUser "bob") (by decide) (by decide) (by decide) (by decide) (by decide)⟩

/-- Claim C2: for existing users `a` and `b`, the follow operation fails
with HTTP 400 (Conflict-class) when `b` is already in `a`'s `following`
list, the unfollow operation fails with HTTP 400 when `b` is not in `a`'s
`following` list, and in both failure cases the stored user state is
completely unchanged. -/
theorem follow_unfollow_conflict (db : UserDb) (a b : String)
    (uA uB : UserDoc) (hA : db a = some uA) (hB : db b = some uB) :
    (uA.following.contains b = true →
      (followUserController db a b).1.status = 400 ∧
      (followUserController db a b).2 = db) ∧
    (uA.following.contains b = false →
      (unfollowUserController db a b).1.status = 400 ∧
      (unfollowUserController db a b).2 = db) := by
  constructor
  · intro hcon
    have hmem : b ∈ uA.following := by simpa using hcon
    by_cases hab : a = b
    · subst hab
      simp [followUserController]
    · simp [followUserController, hab, hA, hB, hmem]
  · intro hcon
    have hmem : b ∉ uA.following := by simpa using hcon
    by_cases hab : a = b
    · subst hab
      simp [unfollowUserController]
    · simp [unfollowUserController, hab, hA, hB, hmem]

/-- Witness for C2 at a concrete database where `"a"` follows `"b"`. -/
theorem follow_unfollow_conflict_witness :
    (relDb "a" = some relAlice ∧ relDb "b" = some relBob) ∧
    ((relAlice.following.contains "b" = true →
        (followUserController relDb "a" "b").1.status = 400 ∧
        (followUserController relDb "a" "b").2 = relDb) ∧
      (relAlice.following.contains "b" = false →
        (unfollowUserController relDb "a" "b").1.status = 400 ∧
        (unfollowUserController relDb "a" "b").2 = relDb)) :=
  ⟨by decide, follow_unfollow_conflict relDb "a" "b" relAlice relBob
    (by decide) (by decide)⟩

/-- Claim C5: the follow operation with identical actor and target ids
fails with HTTP 400 (Conflict-class) and returns the stored user state
completely unchanged: no list or counter of any user is modified. -/
theorem self_follow_rejected (db : UserDb) (u : String) :
    (followUserController db u u).1.status = 400 ∧
    (followUserController db u u).2 = db := by
  simp [followUserController]

/-- Counterexample to claim C3 as stated: in `dupDb` every counter equals
the corresponding list length, yet after the unfollow operation
`"a" → "b"` the actor stores `followingCount = 1` while its `following`
list is empty, because the unfollow filter removes both copies of `"b"`
but the counter is decremented only once. -/
theorem counters_mirror_counterexample :
    countsOkAt dupDb "a" = true ∧ countsOkAt dupDb "b" = true ∧
    countsOkAt (unfollowUserController dupDb "a" "b").2 "a" = false ∧
    followingCountOf (unfollowUserController dupDb "a" "b").2 "a" = some 1 ∧
    followingOf (unfollowUserController dupDb "a" "b").2 "a" = some [] := by
  decide

theorem length_filter_bne_of_nodup {l : List String} {b : String}
    (hnd : l.Nodup) (hmem : b ∈ l) :
    (l.filter (fun i => !decide (i = b))).length = l.length - 1 := by
  induction l with
  | nil => cases hmem
  | cons x xs ih =>
    by_cases hxb : x = b
    · subst hxb
      have hx : x ∉ xs := (List.nodup_cons.mp hnd).1
      have hfe : List.filter (fun i => !decide (i = x)) xs = xs := by
        apply List.filter_eq_self.mpr
        intro y hy
        have hyx : ¬ y = x := fun e => hx (e ▸ hy)
        simpa using hyx
      simp [List.filter_cons, hfe]
    · have hnd2 := (List.nodup_cons.mp hnd).2
      have hmem2 : b ∈ xs := by
        rcases List.mem_cons.mp hmem with h | h
        · exact absurd h.symm hxb
        · exact h
      have hp : 0 < xs.length := List.length_pos_of_mem hmem2
      have ihx := ih hnd2 hmem2
      simp [List.filter_cons, hxb, ihx]
      omega

/-- Claim C3 (amended): the as-stated claim additionally requires the
relationship lists to be duplicate-free and the relationship to be
recorded symmetrically; under those conditions, if every counter equals
the corresponding list length before a follow or unfollow operation
between existing users `a` and `b`, the same holds for both users after
the operation (with decrements clamped at zero). -/
theorem counters_mirror_preserved (db : UserDb) (a b : String)
    (uA uB : UserDoc) (hA : db a = some uA) (hB : db b = some uB)
    (hOkA : countsOkB uA = true) (hOkB : countsOkB uB = true)
    (hndF : uA.following.Nodup) (hndR : uB.followers.Nodup)
    (hsym : uA.following.contains b = uB.followers.contains a) :
    countsOkAt (followUserController db a b).2 a = true ∧
    countsOkAt (followUserController db a b).2 b = true ∧
    countsOkAt (unfollowUserController db a b).2 a = true ∧
    countsOkAt (unfollowUserController db a b).2 b = true := by
  have hOkA2 : uA.followingCount = uA.following.length ∧
      uA.followerCount = uA.followers.length := by
    simpa [countsOkB] using hOkA
  have hOkB2 : uB.followingCount = uB.following.length ∧
      uB.followerCount = uB.followers.length := by
    simpa [countsOkB] using hOkB
  by_cases hab : a = b
  · subst hab
    simp [followUserController, unfollowUserController, countsOkAt, hA,
      hOkA, hOkB]
  · by_cases hc : uA.following.contains b = true
    · have hmemF : b ∈ uA.following := by simpa using hc
      have hmemR : a ∈ uB.followers := by
        have : uB.followers.contains a = true := by rw [← hsym]; exact hc
        simpa using this
      have h2 := unfollowUserController_success db hab hA hB hc
      refine ⟨?_, ?_, ?_, ?_⟩
      · simp [followUserController, hab, hA, hB, hmemF, countsOkAt, hOkA]
      · simp [followUserController, hab, hA, hB, hmemF, countsOkAt, hOkB]
      · simp [h2, countsOkAt, UserDb.set, hab, countsOkB,
          length_filter_bne_of_nodup hndF hmemF, hOkA2.1, hOkA2.2]
      · simp [h2, countsOkAt, UserDb.set, hab, countsOkB,
          length_filter_bne_of_nodup hndR hmemR, hOkB2.1, hOkB2.2]
    · have hc2 : uA.following.contains b = false := by
        simpa using hc
      have hmemF : b ∉ uA.following := by simpa using hc2
      have h1 := followUserController_success db hab hA hB hc2
      refine ⟨?_, ?_, ?_, ?_⟩
      · simp [h1, countsOkAt, UserDb.set, hab, countsOkB, hOkA2.1, hOkA2.2]
      · simp [h1, countsOkAt, UserDb.set, hab, countsOkB, hOkB2.1, hOkB2.2]
      · simp [unfollowUserController, hab, hA, hB, hmemF, countsOkAt, hOkA]
      · simp [unfollowUserController, hab, hA, hB, hmemF, countsOkAt, hOkB]

/-- Witness for the amended C3 at a concrete database where `"a"` follows
`"b"` with consistent counters. -/
theorem counters_mirror_preserved_witness :
    (relDb "a" = some relAlice ∧ relDb "b" = some relBob ∧
      countsOkB relAlice = true ∧ countsOkB relBob = true ∧
      relAlice.following.Nodup ∧ relBob.followers.Nodup ∧
      relAlice.following.contains "b" = relBob.followers.contains "a") ∧
    (countsOkAt (followUserController relDb "a" "b").2 "a" = true ∧
      countsOkAt (followUserController relDb "a" "b").2 "b" = true ∧
      countsOkAt (unfollowUserController relDb "a" "b").2 "a" = true ∧
      countsOkAt (unfollowUserController relDb "a" "b").2 "b" = true) :=
  ⟨by decide, counters_mirror_preserved relDb "a" "b" relAlice relBob
    (by decide) (by decide) (by decide) (by decide) (by decide) (by decide)
    (by decide)⟩

theorem PostDb.set_self_post (db : PostDb) (k : String) (v : PostDoc) :
    PostDb.set db k v k = some v := by
  simp [PostDb.set]

theorem PostDb.set_already (db : PostDb) {k : String} {v : PostDoc}
    (h : db k = some v) : db.set k v = db := by
  funext i
  by_cases hik : i = k
  · subst hik
    simp [PostDb.set, h]
  · simp [PostDb.set, hik]

theorem addToSet_of_contains {l : List String} {u : String}
    (h : l.contains u = true) : addToSet l u = l := by
  have hm : u ∈ l := by simpa using h
  simp [addToSet, hm]

theorem addToSet_contains (l : List String) (u : String) :
    (addToSet l u).contains u = true := by
  by_cases hm : u ∈ l <;> simp [addToSet, hm]

theorem addToSet_idem (l : List String) (u : String) :
    addToSet (addToSet l u) u = addToSet l u :=
  addToSet_of_contains (addToSet_contains l u)

theorem pull_of_not_contains {l : List String} {u : String}
    (h : l.contains u = false) : pull l u = l :=
  filter_ne_of_not_contains h

/-- Claim C4: for a like, comment or save on an existing post, exactly one
notification is created for the post owner when the actor is not the
owner — carrying the action type, the originating post id and a generated
message, addressed to the owner and therefore not to the actor — and zero
notifications are created when the actor is the owner. -/
theorem interaction_notifications (db : PostDb) (postId userId text : String)
    (now : Nat) (p : PostDoc) (hp : db postId = some p) :
    (¬ p.userId = userId →
      (likeOOTDPostController db postId userId).2.2
        = [⟨p.userId, "like", postId,
            "User " ++ userId ++ " liked your post."⟩] ∧
      (addCommentController db postId userId text now).2.2
        = [⟨p.userId, "comment", postId,
            "User " ++ userId ++ " commented on your post: \"" ++ text ++ "\""⟩] ∧
      (saveOOTDPostController db postId userId).2.2
        = [⟨p.userId, "save", postId,
            "User " ++ userId ++ " saved your post."⟩]) ∧
    (p.userId = userId →
      (likeOOTDPostController db postId userId).2.2 = [] ∧
      (addCommentController db postId userId text now).2.2 = [] ∧
      (saveOOTDPostController db postId userId).2.2 = []) := by
  constructor
  · intro hne
    refine ⟨?_, ?_, ?_⟩ <;>
      simp [likeOOTDPostController, addCommentController,
        saveOOTDPostController, hp, hne]
  · intro heq
    refine ⟨?_, ?_, ?_⟩ <;>
      simp [likeOOTDPostController, addCommentController,
        saveOOTDPostController, hp, heq]

/-- Witness for C4 at a concrete one-post database. -/
theorem interaction_notifications_witness :
    postDb0 "p1" = some post0 ∧
    (¬ post0.userId = "u1" →
      (likeOOTDPostController postDb0 "p1" "u1").2.2
        = [⟨post0.userId, "like", "p1", "User u1 liked your post."⟩] ∧
      (addCommentController postDb0 "p1" "u1" "hi" 0).2.2
        = [⟨post0.userId, "comment", "p1",
            "User u1 commented on your post: \"hi\""⟩] ∧
      (saveOOTDPostController postDb0 "p1" "u1").2.2
        = [⟨post0.userId, "save", "p1", "User u1 saved your post."⟩]) ∧
    (post0.userId = "u1" →
      (likeOOTDPostController postDb0 "p1" "u1").2.2 = [] ∧
      (addCommentController postDb0 "p1" "u1" "hi" 0).2.2 = [] ∧
      (saveOOTDPostController postDb0 "p1" "u1").2.2 = []) :=
  ⟨by decide, interaction_notifications postDb0 "p1" "u1" "hi" 0 post0 (by decide)⟩

theorem likeOOTDPost_eq (db : PostDb) (postId userId : String) (p : PostDoc)
    (hp : db postId = some p) :
    likeOOTDPost db postId userId
      = (some { p with likes := addToSet p.likes userId },
          db.set postId { p with likes := addToSet p.likes userId }) := by
  simp [likeOOTDPost, hp]

/-- Claim C8: on an existing post, applying the like operation twice with
the same user id leaves exactly the state reached after applying it once,
and in particular the likes-set cardinality is unchanged by the second
application. -/
theorem like_idempotent (db : PostDb) (postId userId : String) (p : PostDoc)
    (hp : db postId = some p) :
    (likeOOTDPost (likeOOTDPost db postId userId).2 postId userId).2
      = (likeOOTDPost db postId userId).2 ∧
    likesCountOf (likeOOTDPost (likeOOTDPost db postId userId).2 postId userId).2
        postId
      = likesCountOf (likeOOTDPost db postId userId).2 postId := by
  have e1 := likeOOTDPost_eq db postId userId p hp
  have h1p : (likeOOTDPost db postId userId).2 postId
      = some { p with likes := addToSet p.likes userId } := by
    rw [e1]
    exact PostDb.set_self_post _ _ _
  have e2 := likeOOTDPost_eq (likeOOTDPost db postId userId).2 postId userId
    { p with likes := addToSet p.likes userId } h1p
  have h2 : (likeOOTDPost (likeOOTDPost db postId userId).2 postId userId).2
      = (likeOOTDPost db postId userId).2 := by
    simp only [e2, addToSet_idem]
    exact PostDb.set_already _ h1p
  exact ⟨h2, by rw [h2]⟩

/-- Witness for C8 at a concrete one-post database. -/
theorem like_idempotent_witness :
    postDb0 "p1" = some post0 ∧
    ((likeOOTDPost (likeOOTDPost postDb0 "p1" "u1").2 "p1" "u1").2
        = (likeOOTDPost postDb0 "p1" "u1").2 ∧
      likesCountOf (likeOOTDPost (likeOOTDPost postDb0 "p1" "u1").2 "p1" "u1").2
          "p1"
        = likesCountOf (likeOOTDPost postDb0 "p1" "u1").2 "p1") :=
  ⟨by decide, like_idempotent postDb0 "p1" "u1" post0 (by decide)⟩

/-- Claim C10: on an existing post, unliking with a user id absent from
the likes list (respectively unsaving with a user id absent from the
saves list) succeeds with HTTP 200 rather than a Conflict error and
leaves the stored post — its likes, saves and comments — unchanged. -/
theorem unlike_unsave_noop (db : PostDb) (postId userId : String)
    (p : PostDoc) (hp : db postId = some p) :
    (p.likes.contains userId = false →
      (unlikeOOTDPostController db postId userId).1.status = 200 ∧
      (unlikeOOTDPostController db postId userId).2.1 postId = some p) ∧
    (p.saves.contains userId = false →
      (unsaveOOTDPostController db postId userId).1.status = 200 ∧
      (unsaveOOTDPostController db postId userId).2.1 postId = some p) := by
  constructor
  · intro h
    refine ⟨by simp [unlikeOOTDPostController, hp], ?_⟩
    simp [unlikeOOTDPostController, hp, pull_of_not_contains h, PostDb.set_self_post]
  · intro h
    refine ⟨by simp [unsaveOOTDPostController, hp], ?_⟩
    simp [unsaveOOTDPostController, hp, pull_of_not_contains h, PostDb.set_self_post]

/-- Witness for C10 at a concrete one-post database. -/
theorem unlike_unsave_noop_witness :
    postDb0 "p1" = some post0 ∧
    ((post0.likes.contains "u1" = false →
        (unlikeOOTDPostController postDb0 "p1" "u1").1.status = 200 ∧
        (unlikeOOTDPostController postDb0 "p1" "u1").2.1 "p1" = some post0) ∧
      (post0.saves.contains "u1" = false →
        (unsaveOOTDPostController postDb0 "p1" "u1").1.status = 200 ∧
        (unsaveOOTDPostController postDb0 "p1" "u1").2.1 "p1" = some post0)) :=
  ⟨by decide, unlike_unsave_noop postDb0 "p1" "u1" post0 (by decide)⟩

theorem length_updateById (store : List ProductDoc) (pid : Nat)
    (v : ProductDoc) : (updateById store pid v).length = store.length := by
  induction store with
  | nil => rfl
  | cons p rest ih =>
    by_cases h : p.pid = pid <;> simp [updateById, h, ih]

theorem map_pid_updateById {v : ProductDoc} (store : List ProductDoc)
    {pid : Nat} (hv : v.pid = pid) :
    (updateById store pid v).map ProductDoc.pid
      = store.map ProductDoc.pid := by
  induction store with
  | nil => rfl
  | cons p rest ih =>
    by_cases h : p.pid = pid
    · simp [updateById, h, hv]
    · simp [updateById, h, ih]

theorem countP_updateById (q : ProductDoc → Bool) {store : List ProductDoc}
    {e : ProductDoc} (v : ProductDoc) (hmem : e ∈ store)
    (hnd : (store.map ProductDoc.pid).Nodup) :
    (updateById store e.pid v).countP q + (if q e then 1 else 0)
      = store.countP q + (if q v then 1 else 0) := by
  induction store with
  | nil => cases hmem
  | cons p rest ih =>
    rw [List.map_cons, List.nodup_cons] at hnd
    rcases List.mem_cons.mp hmem with he | he
    · subst he
      simp [updateById, List.countP_cons]
      omega
    · by_cases hpp : p.pid = e.pid
      · exfalso
        have hin : e.pid ∈ rest.map ProductDoc.pid :=
          List.mem_map_of_mem ProductDoc.pid he
        exact hnd.1 (hpp ▸ hin)
      · simp only [updateById, if_neg hpp, List.countP_cons]
        have := ih he hnd.2
        omega

theorem mem_updateById {store : List ProductDoc} {pid : Nat}
    {v q : ProductDoc} (h : q ∈ updateById store pid v) :
    q = v ∨ q ∈ store := by
  induction store with
  | nil => cases h
  | cons p rest ih =>
    by_cases hp : p.pid = pid
    · simp only [updateById, if_pos hp] at h
      rcases List.mem_cons.mp h with h1 | h1
      · exact Or.inl h1
      · exact Or.inr (List.mem_cons_of_mem _ h1)
    · simp only [updateById, if_neg hp] at h
      rcases List.mem_cons.mp h with h1 | h1
      · exact Or.inr (h1 ▸ List.mem_cons_self _ _)
      · rcases ih h1 with h2 | h2
        · exact Or.inl h2
        · exact Or.inr (List.mem_cons_of_mem _ h2)

theorem matchesNB_applyUpdate (c : CandidateDoc) (p : ProductDoc) :
    matchesNB c (applyUpdate c p) = true := by
  simp [matchesNB, applyUpdate]

theorem matchesNB_createFromCandidate (c : CandidateDoc) (nid : Nat) :
    matchesNB c (createFromCandidate nid c) = true := by
  simp [matchesNB, createFromCandidate]

theorem pid_applyUpdate (c : CandidateDoc) (p : ProductDoc) :
    (applyUpdate c p).pid = p.pid := rfl

/-- One application of the service upsert: afterwards exactly one record
matches (name, brand), ids stay unique, the id bound stays fresh, and the
store length grows by one exactly when no record matched before. -/
theorem upsert_service_invariants (store : List ProductDoc) (nid : Nat)
    (c : CandidateDoc)
    (hnd : (store.map ProductDoc.pid).Nodup)
    (hfresh : ∀ p ∈ store, p.pid < nid)
    (hle : store.countP (matchesNB c) ≤ 1) :
    (upsertProductFromClarifai store nid c).2.1.countP (matchesNB c) = 1 ∧
    ((upsertProductFromClarifai store nid c).2.1.map ProductDoc.pid).Nodup ∧
    (∀ p ∈ (upsertProductFromClarifai store nid c).2.1,
        p.pid < (upsertProductFromClarifai store nid c).2.2) ∧
    ((store.find? (matchesNB c)).isSome →
      (upsertProductFromClarifai store nid c).2.1.length = store.length) ∧
    ((store.find? (matchesNB c)).isNone →
      (upsertProductFromClarifai store nid c).2.1.length = store.length + 1) := by
  cases hfind : store.find? (matchesNB c) with
  | some existing =>
    have hq : matchesNB c existing = true := List.find?_some hfind
    have hmem : existing ∈ store := List.mem_of_find?_eq_some hfind
    have hone : store.countP (matchesNB c) = 1 := by
      have hpos : 0 < store.countP (matchesNB c) :=
        List.countP_pos_iff.mpr ⟨existing, hmem, hq⟩
      omega
    have hcount := countP_updateById (matchesNB c) (applyUpdate c existing)
      hmem hnd
    rw [hq, matchesNB_applyUpdate] at hcount
    refine ⟨?_, ?_, ?_, ?_, ?_⟩
    · simp only [upsertProductFromClarifai, hfind]
      omega
    · simp only [upsertProductFromClarifai, hfind]
      rw [map_pid_updateById store (pid_applyUpdate c existing)]
      exact hnd
    · simp only [upsertProductFromClarifai, hfind]
      intro p hp
      rcases mem_updateById hp with h1 | h1
      · subst h1
        rw [pid_applyUpdate]
        exact hfresh existing hmem
      · exact hfresh p h1
    · intro _
      simp only [upsertProductFromClarifai, hfind]
      exact length_updateById store existing.pid (applyUpdate c existing)
    · intro habs
      simp at habs
  | none =>
    have hzero : store.countP (matchesNB c) = 0 := by
      apply List.countP_eq_zero.mpr
      intro p hp
      exact (List.find?_eq_none.mp hfind) p hp
    refine ⟨?_, ?_, ?_, ?_, ?_⟩
    · simp only [upsertProductFromClarifai, hfind]
      simp [List.countP_append, hzero, matchesNB_createFromCandidate]
    · simp only [upsertProductFromClarifai, hfind]
      have hnotin : (nid : Nat) ∉ store.map ProductDoc.pid := by
        intro hin
        rcases List.mem_map.mp hin with ⟨p, hp, hpe⟩
        have := hfresh p hp
        omega
      simp [List.nodup_append, hnd, hnotin, createFromCandidate]
    · simp only [upsertProductFromClarifai, hfind]
      intro p hp
      rcases List.mem_append.mp hp with h1 | h1
      · have := hfresh p h1
        omega
      · have hpe : p = createFromCandidate nid c := by simpa using h1
        subst hpe
        simp [createFromCandidate]
    · intro habs
      simp at habs
    · intro _
      simp only [upsertProductFromClarifai, hfind]
      simp

theorem matchesNBTC_imp_matchesNB {c : CandidateDoc} {p : ProductDoc}
    (h : matchesNBTC c p = true) : matchesNB c p = true := by
  simp only [matchesNBTC, Bool.and_eq_true] at h
  simp only [matchesNB, Bool.and_eq_true]
  exact h.1.1

theorem matchesNBTC_createFromCandidate (c : CandidateDoc) (nid : Nat) :
    matchesNBTC c (createFromCandidate nid c) = true := by
  simp [matchesNBTC, createFromCandidate]

theorem isSome_find?_of_countP_pos {store : List ProductDoc}
    {q : ProductDoc → Bool} (h : 0 < store.countP q) :
    (store.find? q).isSome = true := by
  cases hf : store.find? q with
  | some _ => rfl
  | none =>
    have hz : store.countP q = 0 :=
      List.countP_eq_zero.mpr (fun p hp => (List.find?_eq_none.mp hf) p hp)
    omega

/-- Counterexample to claim C6 as stated: the deployed upsert endpoint
keys its lookup on (name, brand, type, color).  Starting from a store
holding exactly one product with the candidate's name and brand (but a
different type and color), running the endpoint twice with the same
candidate leaves TWO stored records matching that name and brand — not
one. -/
theorem upsert_twice_counterexample :
    [prodShirt].countP (matchesNB candCoat) = 1 ∧
    clarifaiFieldsPresent candCoat = true ∧
    (upsertProductFromClarifaiController
        (upsertProductFromClarifaiController [prodShirt] 1 candCoat).2.1
        (upsertProductFromClarifaiController [prodShirt] 1 candCoat).2.2
        candCoat).2.1.countP (matchesNB candCoat) = 2 := by
  decide

/-- Claim C6 (amended): provided stored ids are unique and at most one
record matches the candidate's (name, brand) beforehand, the service
upsert run twice leaves exactly one record matching (name, brand), the
second run adding nothing; it updates in place when a match is found and
inserts otherwise.  The controller endpoint keys on (name, brand, type,
color) instead: run twice with a well-formed candidate it leaves exactly
one record matching that quadruple, returning the store unchanged when a
match is found and inserting otherwise. -/
theorem upsert_twice_one_record (store : List ProductDoc) (nid : Nat)
    (c : CandidateDoc)
    (hnd : (store.map ProductDoc.pid).Nodup)
    (hfresh : ∀ p ∈ store, p.pid < nid)
    (hle : store.countP (matchesNB c) ≤ 1) :
    (upsertProductFromClarifai store nid c).2.1.countP (matchesNB c) = 1 ∧
    (upsertProductFromClarifai (upsertProductFromClarifai store nid c).2.1
        (upsertProductFromClarifai store nid c).2.2 c).2.1.countP
      (matchesNB c) = 1 ∧
    (upsertProductFromClarifai (upsertProductFromClarifai store nid c).2.1
        (upsertProductFromClarifai store nid c).2.2 c).2.1.length
      = (upsertProductFromClarifai store nid c).2.1.length ∧
    ((store.find? (matchesNB c)).isSome →
      (upsertProductFromClarifai store nid c).2.1.length = store.length) ∧
    ((store.find? (matchesNB c)).isNone →
      (upsertProductFromClarifai store nid c).2.1.length
        = store.length + 1) ∧
    (clarifaiFieldsPresent c = true →
      (upsertProductFromClarifaiController store nid c).2.1.countP
        (matchesNBTC c) = 1 ∧
      (upsertProductFromClarifaiController
          (upsertProductFromClarifaiController store nid c).2.1
          (upsertProductFromClarifaiController store nid c).2.2 c).2.1
        = (upsertProductFromClarifaiController store nid c).2.1 ∧
      ((store.find? (matchesNBTC c)).isSome →
        (upsertProductFromClarifaiController store nid c).2.1 = store) ∧
      ((store.find? (matchesNBTC c)).isNone →
        (upsertProductFromClarifaiController store nid c).2.1
          = store ++ [createFromCandidate nid c])) := by
  obtain ⟨h1c, h1nd, h1fresh, h1some, h1none⟩ :=
    upsert_service_invariants store nid c hnd hfresh hle
  have hle1 : (upsertProductFromClarifai store nid c).2.1.countP
      (matchesNB c) ≤ 1 := by omega
  obtain ⟨h2c, _h2nd, _h2fresh, h2some, _h2none⟩ :=
    upsert_service_invariants (upsertProductFromClarifai store nid c).2.1
      (upsertProductFromClarifai store nid c).2.2 c h1nd h1fresh hle1
  have h1pos : (((upsertProductFromClarifai store nid c).2.1.find?
      (matchesNB c)).isSome) = true :=
    isSome_find?_of_countP_pos (by omega)
  refine ⟨h1c, h2c, h2some h1pos, h1some, h1none, ?_⟩
  intro hform
  have hleTC : store.countP (matchesNBTC c) ≤ 1 := by
    have hmono : store.countP (matchesNBTC c) ≤ store.countP (matchesNB c) :=
      List.countP_mono_left (fun p _ hp => matchesNBTC_imp_matchesNB hp)
    omega
  cases hfindTC : store.find? (matchesNBTC c) with
  | some e =>
    have hq : matchesNBTC c e = true := List.find?_some hfindTC
    have hmem : e ∈ store := List.mem_of_find?_eq_some hfindTC
    have hone : store.countP (matchesNBTC c) = 1 := by
      have hpos : 0 < store.countP (matchesNBTC c) :=
        List.countP_pos_iff.mpr ⟨e, hmem, hq⟩
      omega
    have hctrl : upsertProductFromClarifaiController store nid c
        = (⟨200, "Product already exists"⟩, store, nid) := by
      simp [upsertProductFromClarifaiController, hform, hfindTC]
    refine ⟨?_, ?_, fun _ => by rw [hctrl], ?_⟩
    · rw [hctrl]
      exact hone
    · rw [hctrl]
      simp [upsertProductFromClarifaiController, hform, hfindTC]
    · intro habs
      simp at habs
  | none =>
    have hzero : store.countP (matchesNBTC c) = 0 :=
      List.countP_eq_zero.mpr
        (fun p hp => (List.find?_eq_none.mp hfindTC) p hp)
    have hctrl : upsertProductFromClarifaiController store nid c
        = (⟨201, "Product created from Clarifai data"⟩,
            store ++ [createFromCandidate nid c], nid + 1) := by
      simp [upsertProductFromClarifaiController, hform, hfindTC]
    have hcnt1 : (store ++ [createFromCandidate nid c]).countP
        (matchesNBTC c) = 1 := by
      simp [List.countP_append, hzero, matchesNBTC_createFromCandidate]
    refine ⟨?_, ?_, ?_, fun _ => by rw [hctrl]⟩
    · rw [hctrl]
      exact hcnt1
    · rw [hctrl]
      have hsome1 : (((store ++ [createFromCandidate nid c]).find?
          (matchesNBTC c)).isSome) = true :=
        isSome_find?_of_countP_pos (by omega)
      obtain ⟨e1, he1⟩ := Option.isSome_iff_exists.mp hsome1
      simp [upsertProductFromClarifaiController, hform, he1]
    · intro habs
      simp at habs

/-- Witness for the amended C6 starting from the empty store. -/
theorem upsert_twice_one_record_witness :
    (([] : List ProductDoc).map ProductDoc.pid).Nodup ∧
    (∀ p ∈ ([] : List ProductDoc), p.pid < 0) ∧
    ([] : List ProductDoc).countP (matchesNB cand0) ≤ 1 ∧
    ((upsertProductFromClarifai [] 0 cand0).2.1.countP (matchesNB cand0) = 1 ∧
      (upsertProductFromClarifai (upsertProductFromClarifai [] 0 cand0).2.1
          (upsertProductFromClarifai [] 0 cand0).2.2 cand0).2.1.countP
        (matchesNB cand0) = 1 ∧
      (upsertProductFromClarifai (upsertProductFromClarifai [] 0 cand0).2.1
          (upsertProductFromClarifai [] 0 cand0).2.2 cand0).2.1.length
        = (upsertProductFromClarifai [] 0 cand0).2.1.length ∧
      ((([] : List ProductDoc).find? (matchesNB cand0)).isSome →
        (upsertProductFromClarifai [] 0 cand0).2.1.length
          = ([] : List ProductDoc).length) ∧
      ((([] : List ProductDoc).find? (matchesNB cand0)).isNone →
        (upsertProductFromClarifai [] 0 cand0).2.1.length
          = ([] : List ProductDoc).length + 1) ∧
      (clarifaiFieldsPresent cand0 = true →
        (upsertProductFromClarifaiController [] 0 cand0).2.1.countP
          (matchesNBTC cand0) = 1 ∧
        (upsertProductFromClarifaiController
            (upsertProductFromClarifaiController [] 0 cand0).2.1
            (upsertProductFromClarifaiController [] 0 cand0).2.2 cand0).2.1
          = (upsertProductFromClarifaiController [] 0 cand0).2.1 ∧
        ((([] : List ProductDoc).find? (matchesNBTC cand0)).isSome →
          (upsertProductFromClarifaiController [] 0 cand0).2.1 = []) ∧
        ((([] : List ProductDoc).find? (matchesNBTC cand0)).isNone →
          (upsertProductFromClarifaiController [] 0 cand0).2.1
            = [] ++ [createFromCandidate 0 cand0]))) :=
  ⟨by decide, by decide, by decide,
    upsert_twice_one_record [] 0 cand0 (by decide) (by decide) (by decide)⟩

/-- Claim C7: when a closet-item creation request carries a product
reference resolving to an existing product, each descriptive field of the
created item (type, color, image/customImage, name, season, occasion)
equals the product's value when the product has a truthy value for that
field, and equals the request-supplied value exactly when the product
lacks it — product-first, request-second precedence. -/
theorem closet_item_product_precedence (products : List ProductDoc)
    (d : ClosetItemData) (pid : Nat) (product : ProductDoc)
    (item : ClosetItemDoc)
    (hpid : d.productId = some pid)
    (hfind : products.find? (fun p => p.pid == pid) = some product)
    (hok : createClosetItem products d = Except.ok item) :
    ((truthyO product.ptype = true → item.ptype = product.ptype) ∧
      (truthyO product.ptype = false → item.ptype = d.ptype)) ∧
    ((truthyO product.color = true → item.color = product.color) ∧
      (truthyO product.color = false → item.color = d.color)) ∧
    ((truthyO product.image = true → item.customImage = product.image) ∧
      (truthyO product.image = false → item.customImage = d.customImage)) ∧
    ((truthyS product.name = true → item.name = some product.name) ∧
      (truthyS product.name = false → item.name = d.name)) ∧
    ((truthyO product.season = true → item.season = product.season) ∧
      (truthyO product.season = false → item.season = d.season)) ∧
    ((truthyO product.occasion = true → item.occasion = product.occasion) ∧
      (truthyO product.occasion = false → item.occasion = d.occasion)) := by
  simp only [createClosetItem, hpid, hfind] at hok
  have hitem := (Except.ok.inj hok).symm
  subst hitem
  refine ⟨⟨?_, ?_⟩, ⟨?_, ?_⟩, ⟨?_, ?_⟩, ⟨?_, ?_⟩, ⟨?_, ?_⟩, ⟨?_, ?_⟩⟩ <;>
    intro h <;> simp [jsOr, h] <;> simp [truthyO, h]

/-- Witness for C7 at a concrete product and request. -/
theorem closet_item_product_precedence_witness :
    reqW.productId = some 5 ∧
    [prodW].find? (fun p => p.pid == 5) = some prodW ∧
    createClosetItem [prodW] reqW = Except.ok itemW ∧
    (((truthyO prodW.ptype = true → itemW.ptype = prodW.ptype) ∧
        (truthyO prodW.ptype = false → itemW.ptype = reqW.ptype)) ∧
      ((truthyO prodW.color = true → itemW.color = prodW.color) ∧
        (truthyO prodW.color = false → itemW.color = reqW.color)) ∧
      ((truthyO prodW.image = true → itemW.customImage = prodW.image) ∧
        (truthyO prodW.image = false → itemW.customImage = reqW.customImage)) ∧
      ((truthyS prodW.name = true → itemW.name = some prodW.name) ∧
        (truthyS prodW.name = false → itemW.name = reqW.name)) ∧
      ((truthyO prodW.season = true → itemW.season = prodW.season) ∧
        (truthyO prodW.season = false → itemW.season = reqW.season)) ∧
      ((truthyO prodW.occasion = true → itemW.occasion = prodW.occasion) ∧
        (truthyO prodW.occasion = false → itemW.occasion = reqW.occasion))) :=
  ⟨by decide, by decide, by rfl,
    closet_item_product_precedence [prodW] reqW 5 prodW itemW
      (by decide) (by decide) (by rfl)⟩

/-- Claim C9: `generateToken` issues a token whose validity window is
exactly one hour and that verifies to the issuing user id strictly before
the hour elapses and fails afterwards; `verifyToken` responds 401 when
the Authorization header is absent, 403 when the token word is missing or
`jwt.verify` rejects the token, and otherwise exposes the decoded user
id. -/
theorem auth_token_contract (secret userId scheme : String)
    (now now2 : Nat) (t : Jwt) (p : AuthPayload) :
    (generateToken secret userId now).exp
      - (generateToken secret userId now).iat = 3600 ∧
    (generateToken secret userId now).payload.userId = userId ∧
    (now2 < now + 3600 →
      jwtVerify (generateToken secret userId now) secret now2
        = some ⟨userId⟩) ∧
    (now + 3600 ≤ now2 →
      jwtVerify (generateToken secret userId now) secret now2 = none) ∧
    (verifyToken secret now none).status = 401 ∧
    (verifyToken secret now (some ⟨scheme, none⟩)).status = 403 ∧
    (jwtVerify t secret now = none →
      (verifyToken secret now (some ⟨scheme, some t⟩)).status = 403) ∧
    (jwtVerify t secret now = some p →
      verifyToken secret now (some ⟨scheme, some t⟩)
        = .authenticated p.userId) := by
  refine ⟨?_, rfl, ?_, ?_, rfl, rfl, ?_, ?_⟩
  · simp [generateToken, jwtSign]
  · intro h
    simp [generateToken, jwtSign, jwtVerify, h]
  · intro h
    simp [generateToken, jwtSign, jwtVerify]
    omega
  · intro h
    simp [verifyToken, VerifyOutcome.status, h]
  · intro h
    simp [verifyToken, VerifyOutcome.status, h]

/-- Witness for C9 at concrete inputs. -/
theorem auth_token_contract_witness :
    (generateToken "s" "u" 0).exp - (generateToken "s" "u" 0).iat = 3600 ∧
    (generateToken "s" "u" 0).payload.userId = "u" ∧
    (100 < 0 + 3600 →
      jwtVerify (generateToken "s" "u" 0) "s" 100 = some ⟨"u"⟩) ∧
    (0 + 3600 ≤ 100 →
      jwtVerify (generateToken "s" "u" 0) "s" 100 = none) ∧
    (verifyToken "s" 0 none).status = 401 ∧
    (verifyToken "s" 0 (some ⟨"Bearer", none⟩)).status = 403 ∧
    (jwtVerify badToken "s" 0 = none →
      (verifyToken "s" 0 (some ⟨"Bearer", some badToken⟩)).status = 403) ∧
    (jwtVerify badToken "s" 0 = some ⟨"u"⟩ →
      verifyToken "s" 0 (some ⟨"Bearer", some badToken⟩)
        = .authenticated (AuthPayload.mk "u").userId) :=
  auth_token_contract "s" "u" "Bearer" 0 100 badToken ⟨"u"⟩

end Vesture
